import Mathlib

/-!
Verification development for the voice-call relay (`mainn.py`, `db.py`).

The Python sources are shallowly embedded as pure Lean functions:
* JSON values become the `Json` inductive; `json.dumps` becomes `dumps`.
* The Python base64 round trip in the audio forwarding path becomes
  `b64encodeBytes` / `b64decodeChars` over byte lists (`Nat` values < 256).
* The per-call mutable dict `call_data[call_uuid]` becomes an
  `Option CallRecord` threaded through the event handlers.
* The external collaborators (the `google_calender` module, which is not part
  of this repository, the Pinecone search, and the Supabase transport) are
  parameters collected in the `Collab` structure.
* Socket sends and collaborator invocations are logged in a `List Eff`;
  `Eff.toOpenAiRaw` records the places where the source passes a Python dict
  to `websocket.send` without `json.dumps` (no JSON text frame results).
-/

/-- JSON values, modelling Python objects passed to `json.dumps`. -/
inductive Json where
  | null
  | bool (b : Bool)
  | num (n : Int)
  | str (s : String)
  | arr (elems : List Json)
  | obj (fields : List (String × Json))

/-- Python truthiness (`if result:`) for the JSON values that occur here. -/
def Json.truthy : Json → Bool
  | .null => false
  | .bool b => b
  | .num n => n != 0
  | .str s => s != ""
  | .arr xs => !xs.isEmpty
  | .obj fs => !fs.isEmpty

/-- `d.get(k)` on a JSON object (first matching key); `none` otherwise. -/
def Json.get? (j : Json) (k : String) : Option Json :=
  match j with
  | .obj fields => fields.lookup k
  | _ => none

/-- `k in d` for a JSON object (Python `'error' in booking_result`). -/
def Json.hasKey (j : Json) (k : String) : Bool :=
  (j.get? k).isSome

def escapeJsonChar (c : Char) : String :=
  if c = '"' then "\\\"" else if c = '\\' then "\\\\" else if c = '\n' then "\\n" else String.mk [c]

def escapeJson (s : String) : String :=
  String.join (s.toList.map escapeJsonChar)

mutual

/-- `json.dumps` with its default separators. -/
def dumps : Json → String
  | .null => "null"
  | .bool true => "true"
  | .bool false => "false"
  | .num n => toString n
  | .str s => "\"" ++ escapeJson s ++ "\""
  | .arr xs => "[" ++ dumpsList xs ++ "]"
  | .obj fs => "\x7b" ++ dumpsFields fs ++ "\x7d"

def dumpsList : List Json → String
  | [] => ""
  | [x] => dumps x
  | x :: y :: rest => dumps x ++ ", " ++ dumpsList (y :: rest)

def dumpsFields : List (String × Json) → String
  | [] => ""
  | [(k, v)] => "\"" ++ escapeJson k ++ "\": " ++ dumps v
  | (k, v) :: f :: rest =>
      "\"" ++ escapeJson k ++ "\": " ++ dumps v ++ ", " ++ dumpsFields (f :: rest)

end

/-- Python `str()` of a JSON value, as interpolated into f-strings. -/
def pyStrVal : Json → String
  | .str s => s
  | .num n => toString n
  | .bool true => "True"
  | .bool false => "False"
  | .null => "None"
  | j => dumps j

/-! ## Base64 (the `base64.b64encode(base64.b64decode(...))` round trip) -/

def b64Alphabet : List Char :=
  "ABCDEFGHIJKLMNOPQRSTUVWXYZabcdefghijklmnopqrstuvwxyz0123456789+/".toList

/-- The base64 digit for a 6-bit value. -/
def enc6 (n : Nat) : Char := b64Alphabet.getD n 'A'

/-- Index of `c` in `cs`, counting from `i`. -/
def idxFrom (cs : List Char) (c : Char) (i : Nat) : Option Nat :=
  match cs with
  | [] => none
  | x :: rest => if x == c then some i else idxFrom rest c (i + 1)

/-- The 6-bit value of a base64 digit, if any. -/
def dec6 (c : Char) : Option Nat := idxFrom b64Alphabet c 0

/-- `base64.b64encode` over bytes (each `< 256`), producing characters. -/
def b64encodeBytes : List Nat → List Char
  | [] => []
  | [b0] => [enc6 (b0 / 4), enc6 (b0 % 4 * 16), '=', '=']
  | [b0, b1] => [enc6 (b0 / 4), enc6 (b0 % 4 * 16 + b1 / 16), enc6 (b1 % 16 * 4), '=']
  | b0 :: b1 :: b2 :: rest =>
      enc6 (b0 / 4) :: enc6 (b0 % 4 * 16 + b1 / 16) ::
      enc6 (b1 % 16 * 4 + b2 / 64) :: enc6 (b2 % 64) :: b64encodeBytes rest

/-- `base64.b64decode` on canonical (alphabet-only, properly padded) input;
`none` models the `binascii.Error` raised on malformed input. -/
def b64decodeChars : List Char → Option (List Nat)
  | [] => some []
  | c0 :: c1 :: c2 :: c3 :: rest =>
      match dec6 c0, dec6 c1 with
      | some v0, some v1 =>
        if c2 = '=' then
          if c3 = '=' && rest.isEmpty then some [v0 * 4 + v1 / 16] else none
        else
          match dec6 c2 with
          | some v2 =>
            if c3 = '=' then
              if rest.isEmpty then some [v0 * 4 + v1 / 16, v1 % 16 * 16 + v2 / 4] else none
            else
              match dec6 c3, b64decodeChars rest with
              | some v3, some tl =>
                  some ((v0 * 4 + v1 / 16) :: (v1 % 16 * 16 + v2 / 4) :: (v2 % 4 * 64 + v3) :: tl)
              | _, _ => none
          | none => none
      | _, _ => none
  | _ => none

theorem dec6_enc6 (v : Nat) (h : v < 64) : dec6 (enc6 v) = some v := by
  have : ∀ i : Fin 64, dec6 (enc6 i.val) = some i.val := by decide
  exact this ⟨v, h⟩

theorem enc6_ne_pad (v : Nat) (h : v < 64) : enc6 v ≠ '=' := by
  have : ∀ i : Fin 64, enc6 i.val ≠ '=' := by decide
  exact this ⟨v, h⟩

theorem b64_roundtrip (bs : List Nat) (hb : ∀ b ∈ bs, b < 256) :
    b64decodeChars (b64encodeBytes bs) = some bs := by
  match bs with
  | [] => rfl
  | [b0] =>
      have h0 : b0 < 256 := hb b0 (by simp)
      have e0 : b0 / 4 < 64 := by omega
      have e1 : b0 % 4 * 16 < 64 := by omega
      simp only [b64encodeBytes, b64decodeChars, dec6_enc6 _ e0, dec6_enc6 _ e1]
      simp
      omega
  | [b0, b1] =>
      have h0 : b0 < 256 := hb b0 (by simp)
      have h1 : b1 < 256 := hb b1 (by simp)
      have e0 : b0 / 4 < 64 := by omega
      have e1 : b0 % 4 * 16 + b1 / 16 < 64 := by omega
      have e2 : b1 % 16 * 4 < 64 := by omega
      simp only [b64encodeBytes, b64decodeChars, dec6_enc6 _ e0, dec6_enc6 _ e1, dec6_enc6 _ e2]
      rw [if_neg (enc6_ne_pad _ e2)]
      simp
      omega
  | b0 :: b1 :: b2 :: rest =>
      have h0 : b0 < 256 := hb b0 (by simp)
      have h1 : b1 < 256 := hb b1 (by simp)
      have h2 : b2 < 256 := hb b2 (by simp)
      have e0 : b0 / 4 < 64 := by omega
      have e1 : b0 % 4 * 16 + b1 / 16 < 64 := by omega
      have e2 : b1 % 16 * 4 + b2 / 64 < 64 := by omega
      have e3 : b2 % 64 < 64 := by omega
      have ih : b64decodeChars (b64encodeBytes rest) = some rest :=
        b64_roundtrip rest (fun b hbm => hb b (by simp [hbm]))
      simp only [b64encodeBytes, b64decodeChars, dec6_enc6 _ e0, dec6_enc6 _ e1, dec6_enc6 _ e2,
        dec6_enc6 _ e3, ih]
      rw [if_neg (enc6_ne_pad _ e2), if_neg (enc6_ne_pad _ e3)]
      have r0 : b0 / 4 * 4 + (b0 % 4 * 16 + b1 / 16) / 16 = b0 := by omega
      have r1 : (b0 % 4 * 16 + b1 / 16) % 16 * 16 + (b1 % 16 * 4 + b2 / 64) / 4 = b1 := by omega
      have r2 : (b1 % 16 * 4 + b2 / 64) % 4 * 64 + b2 % 64 = b2 := by omega
      rw [r0, r1, r2]

theorem idxFrom_lt (cs : List Char) (c : Char) (i v : Nat)
    (h : idxFrom cs c i = some v) : v < i + cs.length := by
  induction cs generalizing i with
  | nil => cases h
  | cons x rest ih =>
    rw [idxFrom] at h
    by_cases hx : (x == c) = true
    · rw [if_pos hx] at h
      cases h
      simp
    · rw [if_neg hx] at h
      have := ih (i + 1) h
      simp only [List.length_cons]
      omega

theorem dec6_lt (c : Char) (v : Nat) (h : dec6 c = some v) : v < 64 := by
  have := idxFrom_lt b64Alphabet c 0 v h
  have hlen : b64Alphabet.length = 64 := by decide
  omega

theorem b64decode_bytes_lt (cs : List Char) (bs : List Nat)
    (h : b64decodeChars cs = some bs) : ∀ b ∈ bs, b < 256 := by
  match cs with
  | [] =>
      simp only [b64decodeChars, Option.some.injEq] at h
      subst h; intro b hb; cases hb
  | [c] => simp [b64decodeChars] at h
  | [c, c'] => simp [b64decodeChars] at h
  | [c, c', c''] => simp [b64decodeChars] at h
  | c0 :: c1 :: c2 :: c3 :: rest =>
      rw [b64decodeChars] at h
      split at h
      case h_2 => exact Option.noConfusion h
      case h_1 v0 v1 h0 h1 =>
      have hv0 := dec6_lt c0 v0 h0
      have hv1 := dec6_lt c1 v1 h1
      split at h
      · split at h
        · cases h
          intro b hbm
          simp only [List.mem_singleton] at hbm
          omega
        · exact Option.noConfusion h
      · split at h
        case h_2 => exact Option.noConfusion h
        case h_1 v2 h2 =>
        have hv2 := dec6_lt c2 v2 h2
        split at h
        · split at h
          · cases h
            intro b hbm
            simp only [List.mem_cons, List.not_mem_nil, or_false] at hbm
            rcases hbm with rfl | rfl
            · omega
            · omega
          · exact Option.noConfusion h
        · split at h
          case h_2 => exact Option.noConfusion h
          case h_1 v3 tl h3 hrest =>
          have hv3 := dec6_lt c3 v3 h3
          have ih := b64decode_bytes_lt rest tl hrest
          cases h
          intro b hbm
          simp only [List.mem_cons] at hbm
          rcases hbm with rfl | rfl | rfl | htl
          · omega
          · omega
          · omega
          · exact ih b htl

/-! ## String helpers (Python `in` and `.lower()`) -/

/-- Prefix match on character lists. -/
def headMatch : List Char → List Char → Bool
  | _, [] => true
  | [], _ :: _ => false
  | h :: hs, n :: ns => h == n && headMatch hs ns

/-- Substring containment on character lists (Python `needle in hay`). -/
def charsSub : List Char → List Char → Bool
  | hay, [] => headMatch hay []
  | [], _ :: _ => false
  | h :: hs, n :: ns => headMatch (h :: hs) (n :: ns) || charsSub hs (n :: ns)

/-- Python `needle in hay` on strings. -/
def strContains (hay needle : String) : Bool :=
  charsSub hay.toList needle.toList

/-- Python `str.lower()` (ASCII case folding as used on the transcripts). -/
def lowerStr (s : String) : String :=
  String.mk (s.toList.map Char.toLower)

/-! ## `db.py`: directory collaborator logic -/

/-- One row of the `registration_form` table; `none` models SQL NULL. -/
structure DbRow where
  name : Option String
  email : Option String

/-- Result shape of `get_user_details`. -/
structure UserDetails where
  status : String
  message : String
  data : Option DbRow

/-- `db.get_user_details`: the email is "missing" when Python
`not user_data.get('email')` holds (NULL or empty string), and the record is
incomplete when it is missing or carries a `pending_` placeholder
(`email.startswith('pending_')`, via the executable `headMatch`). -/
def emailMissingOrPending (e : Option String) : Bool :=
  match e with
  | none => true
  | some s => s == "" || headMatch s.toList "pending_".toList

/-- `db.get_user_details` on the fetched row (`none` = phone number not in the
table). The Supabase transport-exception path (status "error") is a
collaborator failure and is not modelled. -/
def get_user_details (row : Option DbRow) : UserDetails :=
  match row with
  | none => { status := "not_found", message := "Number is not registered", data := none }
  | some user_data =>
    if emailMissingOrPending user_data.email then
      { status := "incomplete"
        message := "Registration incomplete. Please fill up the registration form."
        data := some user_data }
    else
      { status := "success", message := "User found", data := some user_data }

/-- Result shape of `add_phone_with_role`. -/
structure RegResult where
  status : String
  message : String

/-- `db.add_phone_with_role`: `number_in_db` is the Supabase existence check,
`db_error` collapses the exception path of either query. -/
def add_phone_with_role (number_in_db : Bool) (db_error : Bool)
    (phone_number : String) (role : String) : RegResult :=
  if db_error then
    { status := "error", message := "Failed to process registration" }
  else if number_in_db then
    { status := "exists", message := "Phone number already exists" }
  else
    { status := "created", message := "New phone number entry created" }

/-! ## `mainn.py`: data model of one call session -/

def SYSTEM_MESSAGE : String :=
  "\nYou are a helpful assistant for Tec Nvirons who can handle three types of requests:\n1. General chat - respond conversationally to general inquiries.\n2. Product database queries - search the product database when users ask about specific products.\n3. Appointment booking - help users schedule appointments using the calendar functions.\nWhen users want to book an appointment, either directly verify if their requested time is available,\nor check available slots if they haven\x27t specified a time.\nBook the appointment once a time is confirmed. Always be helpful, friendly, and conversational.\n"

def NEW_USER_SYSTEM_MESSAGE : String :=
  "\nYou are a helpful assistant for Tec Nvirons. I see you\x27re a new caller.\nBefore we proceed, I need to know if you\x27re a contractor or a customer.\nPlease let me know which one you are, and then I can assist you with\nproduct information, appointment scheduling, or any other questions you have.\n"

/-- One transcription fragment (`call_data[uuid]['transcriptions'][item_id]`). -/
structure Frag where
  text : String
  complete : Bool

/-- One assistant text fragment (an entry of `assistant_responses`). -/
structure AssistantResponse where
  item_id : String
  text : String
  timestamp : Nat

/-- Shape of the parsed `arguments` object of a function-call event
(only the keys the dispatcher reads). -/
structure FnArgs where
  query : Option String := none
  proposed_time : Option String := none
  email : Option String := none

/-- One entry of `call_data[uuid]['function_calls']`. -/
structure FunctionCallRecord where
  type : String
  timestamp : Nat
  args : FnArgs
  result : Json
  item_id : String

/-- One entry of `call_data[uuid]['appointments']`. -/
structure Appointment where
  timestamp : Nat
  proposed_time : String
  email : String
  result : Json
  item_id : String

/-- The per-call record `call_data[call_uuid]`. Dicts keyed by utterance id
become association lists in insertion order. -/
structure CallRecord where
  caller_number : String
  called_number : String
  timestamp : Nat
  transcriptions : List (String × Frag)
  function_calls : List FunctionCallRecord
  assistant_responses : List AssistantResponse
  appointments : List Appointment
  user_exists : Bool
  user_details : Option UserDetails
  user_role_set : Bool
  system_message : String

/-- External collaborators plus ambient inputs: the scheduling service
(`google_calender`, not part of this repository), the product search, the
Supabase state behind `add_phone_with_role`, and the clock. -/
structure Collab where
  now : Nat
  search_result : String → String
  available_slots : Json
  is_slot_available : String → Bool
  book_slot_handler : String → String → Json
  reg_number_in_db : Bool
  reg_db_error : Bool

/-! ## Outbound frames and logged effects -/

/-- JSON frames sent to the telephony (Plivo) socket. -/
inductive PlivoMsg where
  | playAudio (contentType : String) (sampleRate : Nat) (payload : String)
  | clearAudio (stream_id : String)

/-- The Python dict built by `function_call_output`. -/
structure ConversationItem where
  id : String
  type : String
  call_id : String
  output : String

/-- `mainn.function_call_output`: wraps the dispatch result as
`json.dumps({"result": result})` inside a `conversation.item.create` item. -/
def function_call_output (result : Json) (item_id call_id : String) : ConversationItem :=
  { id := item_id
    type := "function_call_output"
    call_id := call_id
    output := dumps (.obj [("result", result)]) }

/-- Messages composed for the AI-session socket. `temperature_tenths` stands
for the constant float 0.8 of the source. -/
inductive OpenAiOut where
  | inputAudioAppend (audio : String)
  | sessionUpdate (instructions : String)
  | itemCreate (item : ConversationItem)
  | responseCreate (modalities : List String) (temperature_tenths : Nat) (instructions : String)
  | responseCancel

/-- Logged side effects of one handler run. `toOpenAiRaw` marks the two
places (`response.cancel`, the role-capture `response.create`) where the
source passes the Python dict itself to `openai_ws.send` without
`json.dumps`, so no well-formed JSON text frame reaches the socket. -/
inductive Eff where
  | toPlivo (m : PlivoMsg)
  | toOpenAi (m : OpenAiOut)
  | toOpenAiRaw (m : OpenAiOut)
  | register (phone : String) (role : String)
  | book (proposed_time : String) (email : String)

/-- The well-formed JSON protocol messages sent to the AI session. -/
def openAiTextSends (effs : List Eff) : List OpenAiOut :=
  effs.filterMap fun e =>
    match e with
    | .toOpenAi m => some m
    | _ => none

/-- The directory registrations performed. -/
def registrations (effs : List Eff) : List (String × String) :=
  effs.filterMap fun e =>
    match e with
    | .register p r => some (p, r)
    | _ => none

/-- The play-audio frames sent to the telephony socket. -/
def playAudioSends (effs : List Eff) : List PlivoMsg :=
  effs.filterMap fun e =>
    match e with
    | .toPlivo m => some m
    | _ => none

/-! ## `mainn.py` helper operations on the session record -/

/-- Append `delta` to the first matching fragment (Python dict update). -/
def appendFragText (item_id delta : String) : List (String × Frag) → List (String × Frag)
  | [] => []
  | (k, fr) :: rest =>
      if k == item_id then (k, { fr with text := fr.text ++ delta }) :: rest
      else (k, fr) :: appendFragText item_id delta rest

/-- `transcriptions[item_id] = {...}` (replace in place, else append). -/
def setFrag (item_id : String) (fr : Frag) : List (String × Frag) → List (String × Frag)
  | [] => [(item_id, fr)]
  | (k, v) :: rest =>
      if k == item_id then (k, fr) :: rest else (k, v) :: setFrag item_id fr rest

/-- The `conversation.item.input_audio_transcription.delta` update: create the
fragment (incomplete) or append to the accumulated text. -/
def transDelta (item_id delta : String) (m : List (String × Frag)) : List (String × Frag) :=
  match m.lookup item_id with
  | none => m ++ [(item_id, { text := delta, complete := false })]
  | some _ => appendFragText item_id delta m

/-- Append `delta` to the text of the first matching assistant response. -/
def updateAssistantText (item_id delta : String) :
    List AssistantResponse → List AssistantResponse
  | [] => []
  | r :: rest =>
      if r.item_id == item_id then { r with text := r.text ++ delta } :: rest
      else r :: updateAssistantText item_id delta rest

/-- The `response.text.delta` update on `assistant_responses`. -/
def addAssistantDelta (item_id delta : String) (now : Nat)
    (rs : List AssistantResponse) : List AssistantResponse :=
  if rs.any (fun r => r.item_id == item_id) then
    updateAssistantText item_id delta rs
  else
    rs ++ [{ item_id := item_id, text := delta, timestamp := now }]

/-- The email-resolution policy shared by `check_slot_availability` and
`book_appointment`: the stored profile email overrides the default exactly
when the caller is known, the lookup succeeded, and the stored email is
truthy. (`data` is present whenever the status is "success", see
`get_user_details`; the unreachable `none` case yields the default.) -/
def resolveEmail (st : Option CallRecord) (dflt : String) : String :=
  match st with
  | none => dflt
  | some rec =>
    if rec.user_exists then
      match rec.user_details with
      | none => dflt
      | some ud =>
        if ud.status == "success" then
          match ud.data with
          | none => dflt
          | some d =>
            match d.email with
            | none => dflt
            | some e => if e == "" then dflt else e
        else dflt
    else dflt

def recordFunctionCall (st : Option CallRecord) (fc : FunctionCallRecord) :
    Option CallRecord :=
  match st with
  | none => none
  | some rec => some { rec with function_calls := rec.function_calls ++ [fc] }

def recordAppointment (st : Option CallRecord) (a : Appointment) : Option CallRecord :=
  match st with
  | none => none
  | some rec => some { rec with appointments := rec.appointments ++ [a] }

/-- `if result:` followed by the `conversation.item.create` output message and
the `response.create` trigger (lines 380-394 of `mainn.py`). -/
def sendResult (result : Json) (instructions : String) (item_id call_id : String) : List Eff :=
  if result.truthy then
    [.toOpenAi (.itemCreate (function_call_output result item_id call_id)),
     .toOpenAi (.responseCreate ["text", "audio"] 8 instructions)]
  else []

/-! ## The tool dispatcher (`response.function_call_arguments.done` branch) -/

/-- Follow-up instruction of the `search_product_database` branch. -/
def searchInstructions : String :=
  "Share the product information from the database search with the user in a helpful way."

/-- Follow-up instruction of the `get_available_slots` branch. -/
def slotsInstructions : String :=
  "Share the available appointment slots with the user. Format the times in a clear, easy-to-understand way."

/-- Follow-up instruction when a checked slot was booked successfully. -/
def bookedInstructions (proposed_time : String) : String :=
  "Tell the user that the time (" ++ proposed_time ++
  ") was available and has been successfully booked. Confirm the appointment details."

/-- Follow-up instruction when a checked slot was available but booking failed. -/
def bookErrorInstructions (proposed_time err : String) : String :=
  "Tell the user that the time (" ++ proposed_time ++
  ") is available, but there was an error booking: " ++ err ++
  ". Suggest trying again or choosing another time."

/-- Follow-up instruction when the checked slot is unavailable. -/
def unavailableInstructions (proposed_time : String) : String :=
  "Inform the user that the requested time (" ++ proposed_time ++
  ") is not available. Suggest they ask for another time."

/-- Follow-up instruction of the `book_appointment` branch. -/
def bookResultInstructions (proposed_time : String) (hasError : Bool) : String :=
  "Inform the user about the appointment booking result for " ++ proposed_time ++ "." ++
  (if hasError then " Apologize and suggest trying another time slot."
   else " Confirm the appointment was successfully booked.")

/-- The dispatcher of `receive_from_openai`: one branch per recognized
function name; a missing required argument key raises `KeyError` before any
effect, which the handler-wide `except` turns into a silent skip. -/
def dispatchFunction (C : Collab) (function_name : String) (args : FnArgs)
    (item_id call_id : String) (st : Option CallRecord) : Option CallRecord × List Eff :=
  if function_name == "search_product_database" then
    match args.query with
    | none => (st, [])
    | some query =>
      let result : Json := .str (C.search_result query)
      (st, sendResult result searchInstructions item_id call_id)
  else if function_name == "get_available_slots" then
    let result := C.available_slots
    (st, sendResult result slotsInstructions item_id call_id)
  else if function_name == "check_slot_availability" then
    match args.proposed_time with
    | none => (st, [])
    | some proposed_time =>
      let availability := C.is_slot_available proposed_time
      let st1 := recordFunctionCall st
        { type := "check_availability"
          timestamp := C.now
          args := args
          result := .obj [("is_available", .bool availability), ("proposed_time", .str proposed_time)]
          item_id := item_id }
      if availability then
        let email := resolveEmail st "customer@example.com"
        let booking_result := C.book_slot_handler proposed_time email
        let st2 := recordAppointment st1
          { timestamp := C.now, proposed_time := proposed_time, email := email
            result := booking_result, item_id := item_id }
        let result := Json.obj
          [("is_available", .bool true), ("proposed_time", .str proposed_time),
           ("booking_result", booking_result)]
        let instructions :=
          if booking_result.hasKey "error" then
            bookErrorInstructions proposed_time (pyStrVal ((booking_result.get? "error").getD .null))
          else
            bookedInstructions proposed_time
        (st2, .book proposed_time email :: sendResult result instructions item_id call_id)
      else
        let result := Json.obj
          [("is_available", .bool false), ("proposed_time", .str proposed_time)]
        (st1, sendResult result (unavailableInstructions proposed_time) item_id call_id)
  else if function_name == "book_appointment" then
    match args.proposed_time with
    | none => (st, [])
    | some proposed_time =>
      let email := resolveEmail st (args.email.getD "customer@example.com")
      let result := C.book_slot_handler proposed_time email
      let instructions := bookResultInstructions proposed_time (result.hasKey "error")
      let st1 := recordAppointment st
        { timestamp := C.now, proposed_time := proposed_time, email := email
          result := result, item_id := item_id }
      (st1, .book proposed_time email :: sendResult result instructions item_id call_id)
  else (st, [])

/-! ## The AI-to-telephony pump (`receive_from_openai`) -/

/-- AI-session events, discriminated by their `type` field. -/
inductive AiEvent where
  | sessionUpdated
  | errorEvent
  | responseTextDelta (item_id : String) (delta : String)
  | responseAudioDelta (delta : String)
  | functionCallArgsDone (function_name : String) (args : FnArgs) (item_id : String) (call_id : String)
  | transcriptionDelta (item_id : String) (delta : String)
  | transcriptionCompleted (item_id : String) (transcript : String)
  | speechStarted
  | otherType

/-- One raw inbound frame of the AI socket: `malformed` stands for non-JSON
text or a frame whose field accesses raise (`KeyError` etc.). -/
inductive AiInbound where
  | malformed
  | ok (e : AiEvent)

/-- The role-capture instruction of lines 441-448. -/
def thankInstr (role : String) : String :=
  "Thank the user for specifying they are a " ++ role ++
  ". Now continue with normal conversation, offering to help with product information or appointment scheduling."

/-- The `conversation.item.input_audio_transcription.completed` branch
(lines 406-449): store the final transcript, then first-time-caller role
capture. Note line 449 sends the `response.create` dict without `json.dumps`
(`toOpenAiRaw`). -/
def handleTranscriptionCompleted (C : Collab) (item_id transcript : String) :
    Option CallRecord → Option CallRecord × List Eff
  | none => (none, [])
  | some rec =>
    let rec1 := { rec with transcriptions := setFrag item_id { text := transcript, complete := true } rec.transcriptions }
    if !rec1.user_exists && !rec1.user_role_set then
      let lower_transcript := lowerStr transcript
      if strContains lower_transcript "contractor" || strContains lower_transcript "customer" then
        let role := if strContains lower_transcript "contractor" then "contractor" else "customer"
        let result := add_phone_with_role C.reg_number_in_db C.reg_db_error rec1.caller_number role
        if result.status == "created" || result.status == "exists" then
          let rec2 := { rec1 with user_role_set := true, system_message := SYSTEM_MESSAGE }
          (some rec2,
           [.register rec1.caller_number role,
            .toOpenAi (.sessionUpdate SYSTEM_MESSAGE),
            .toOpenAiRaw (.responseCreate ["text", "audio"] 8 (thankInstr role))])
        else (some rec1, [.register rec1.caller_number role])
      else (some rec1, [])
    else (some rec1, [])

/-- `receive_from_openai`: one message of the AI socket against the session
record. `stream_id` is the attribute recorded by the telephony `start` frame
(`none` = attribute never set, so reading it raises before any send). The
whole body is wrapped in `try/except`, so a `malformed` frame changes
nothing and the caller's loop continues. -/
def receive_from_openai (C : Collab) (stream_id : Option String)
    (st : Option CallRecord) : AiInbound → Option CallRecord × List Eff
  | .malformed => (st, [])
  | .ok ev =>
    match ev with
    | .sessionUpdated => (st, [])
    | .errorEvent => (st, [])
    | .otherType => (st, [])
    | .responseTextDelta item_id delta =>
      (match st with
       | none => none
       | some rec =>
         some { rec with assistant_responses := addAssistantDelta item_id delta C.now rec.assistant_responses },
       [])
    | .responseAudioDelta delta =>
      (match b64decodeChars delta.toList with
       | none => (st, [])
       | some bytes =>
         (st, [.toPlivo (.playAudio "audio/x-mulaw" 8000 (String.mk (b64encodeBytes bytes)))]))
    | .functionCallArgsDone function_name args item_id call_id =>
      dispatchFunction C function_name args item_id call_id st
    | .transcriptionDelta item_id delta =>
      (match st with
       | none => none
       | some rec => some { rec with transcriptions := transDelta item_id delta rec.transcriptions },
       [])
    | .transcriptionCompleted item_id transcript =>
      handleTranscriptionCompleted C item_id transcript st
    | .speechStarted =>
      match stream_id with
      | none => (st, [])
      | some sid =>
        (st, [.toPlivo (.clearAudio sid), .toOpenAiRaw .responseCancel])

/-- The driving loop of `handle_message`: `receive_from_openai` per inbound
frame, accumulating effects. -/
def openaiPump (C : Collab) (stream_id : Option String) :
    List AiInbound → Option CallRecord → Option CallRecord × List Eff
  | [], st => (st, [])
  | m :: rest, st =>
    let out := receive_from_openai C stream_id st m
    let out2 := openaiPump C stream_id rest out.1
    (out2.1, out.2 ++ out2.2)

/-! ## The telephony-to-AI pump (`receive_from_plivo`) -/

/-- Inbound telephony frames; `malformed` stands for non-JSON text or a frame
whose key accesses raise. -/
inductive PlivoInbound where
  | malformed
  | media (payload : String)
  | start (streamId : String)
  | hangup
  | other

/-- How the pump's `while True` loop ended. -/
inductive PumpExit where
  | hangupEvent
  | connClosed
  | errorExit

/-- Outcome of one run of `receive_from_plivo` over its inbound stream. -/
structure PlivoPumpRun where
  sends : List Eff
  processed : Nat
  exit : PumpExit
  hangupCalls : Nat

/-- `receive_from_plivo`: the single `try` wraps the whole loop, so the first
frame that raises terminates the pump through the `except` handler (which
invokes `after_call_hangup`); end of input models the transport
`ConnectionClosed`, whose handler also invokes `after_call_hangup`; a `hangup`
frame invokes it and breaks. `hangupCalls` counts those invocations. -/
def receive_from_plivo (openai_open : Bool) : List PlivoInbound → PlivoPumpRun
  | [] => { sends := [], processed := 0, exit := .connClosed, hangupCalls := 1 }
  | .malformed :: _ => { sends := [], processed := 0, exit := .errorExit, hangupCalls := 1 }
  | .hangup :: _ => { sends := [], processed := 0, exit := .hangupEvent, hangupCalls := 1 }
  | .media payload :: rest =>
    let r := receive_from_plivo openai_open rest
    { r with
      sends := (if openai_open then [Eff.toOpenAi (.inputAudioAppend payload)] else []) ++ r.sends
      processed := r.processed + 1 }
  | .start _ :: rest =>
    let r := receive_from_plivo openai_open rest
    { r with processed := r.processed + 1 }
  | .other :: rest =>
    let r := receive_from_plivo openai_open rest
    { r with processed := r.processed + 1 }

/-! ## Post-call processing (`after_call_hangup`) -/

/-- Python truthiness of the three logs checked at line 593. -/
def hasConversationData (r : CallRecord) : Bool :=
  !r.transcriptions.isEmpty || !r.function_calls.isEmpty || !r.assistant_responses.isEmpty

/-- State observed by the post-call step: the session-store entry for this
call plus counters of how many times the summarize-and-deliver body ran and
how many times the record was deleted. -/
structure PostCallState where
  record : Option CallRecord
  summaries : Nat
  deletions : Nat

/-- `after_call_hangup` as one atomic step (its body contains no `await`, so
under the asyncio event loop no other trigger can interleave with it): absent
record returns immediately; an empty session is discarded without
summarization or delivery; otherwise the summarize-and-deliver body runs
(`delivery_fails` models an exception inside it) and the `finally` clause
deletes the record in every case. -/
def after_call_hangup (delivery_fails : Bool) (s : PostCallState) : PostCallState :=
  match s.record with
  | none => s
  | some r =>
    if hasConversationData r then
      { record := none, summaries := s.summaries + 1, deletions := s.deletions + 1 }
    else
      { record := none, summaries := s.summaries, deletions := s.deletions + 1 }

/-- A sequence of trigger firings (hangup event, socket close, pump
exception), each running `after_call_hangup`; the `Bool` is that run's
`delivery_fails`. -/
def runTriggers (fails : List Bool) (s : PostCallState) : PostCallState :=
  fails.foldl (fun st f => after_call_hangup f st) s

/-! ## Concrete fixtures used by the witnesses -/

def demoCollab : Collab :=
  { now := 0
    search_result := fun _ => "found it"
    available_slots := .arr [.str "2024-05-15T14:30:00"]
    is_slot_available := fun _ => true
    book_slot_handler := fun t e =>
      .obj [("htmlLink", .str "http://calendar/evt"), ("time", .str t), ("email", .str e)]
    reg_number_in_db := false
    reg_db_error := false }

def demoRec : CallRecord :=
  { caller_number := "+911234567890"
    called_number := "+910000000000"
    timestamp := 0
    transcriptions := []
    function_calls := []
    assistant_responses := []
    appointments := []
    user_exists := false
    user_details := none
    user_role_set := false
    system_message := NEW_USER_SYSTEM_MESSAGE }

def pendingRow : DbRow := { name := some "Bob", email := some "pending_17" }

def pendingRec : CallRecord :=
  { demoRec with
    user_exists := true
    user_details := some (get_user_details (some pendingRow)) }

/-! ## Supporting lemmas -/

theorem after_call_hangup_none (f : Bool) (s : PostCallState) (h : s.record = none) :
    after_call_hangup f s = s := by
  unfold after_call_hangup
  rw [h]

theorem runTriggers_none (fails : List Bool) (s : PostCallState) (h : s.record = none) :
    runTriggers fails s = s := by
  induction fails with
  | nil => rfl
  | cons f rest ih =>
    unfold runTriggers at ih ⊢
    rw [List.foldl_cons, after_call_hangup_none f s h, ih]

/-! ## Claim theorems -/

/-- C2: for every call, post-call processing (summarize, deliver, delete
session) runs at most once regardless of which trigger fires it or how many
triggers fire (each trigger runs the atomic `after_call_hangup` step: its
body has no suspension point, so concurrent triggers serialize); the session
record is deleted exactly once — never doubly deleted and never leaked. -/
theorem C2_postcall_runs_at_most_once (r : CallRecord) (f : Bool) (fails : List Bool) :
    (runTriggers (f :: fails) { record := some r, summaries := 0, deletions := 0 }).record = none ∧
    (runTriggers (f :: fails) { record := some r, summaries := 0, deletions := 0 }).summaries ≤ 1 ∧
    (runTriggers (f :: fails) { record := some r, summaries := 0, deletions := 0 }).deletions = 1 := by
  have step : runTriggers (f :: fails) { record := some r, summaries := 0, deletions := 0 } =
      runTriggers fails (after_call_hangup f { record := some r, summaries := 0, deletions := 0 }) := by
    unfold runTriggers
    rw [List.foldl_cons]
  by_cases h : hasConversationData r
  · have hstep : after_call_hangup f { record := some r, summaries := 0, deletions := 0 } =
        { record := none, summaries := 1, deletions := 1 } := by
      unfold after_call_hangup
      simp [h]
    rw [step, hstep, runTriggers_none _ _ rfl]
    exact ⟨rfl, by norm_num, rfl⟩
  · have hstep : after_call_hangup f { record := some r, summaries := 0, deletions := 0 } =
        { record := none, summaries := 0, deletions := 1 } := by
      unfold after_call_hangup
      simp [h]
    rw [step, hstep, runTriggers_none _ _ rfl]
    exact ⟨rfl, by norm_num, rfl⟩

/-- C3: on a speech-started event the code does send exactly one clear-audio
frame targeting the recorded stream id, but the `response.cancel` dict is
passed to `openai_ws.send` without `json.dumps` (line 463), unlike every
other protocol send in the file — so no well-formed response-cancel JSON
message reaches the AI-session socket. -/
theorem C3_barge_in_cancel_not_wellformed :
    receive_from_openai demoCollab (some "s1") (some demoRec) (.ok .speechStarted) =
      (some demoRec, [.toPlivo (.clearAudio "s1"), .toOpenAiRaw .responseCancel]) ∧
    openAiTextSends [.toPlivo (.clearAudio "s1"), .toOpenAiRaw .responseCancel] = [] ∧
    playAudioSends [Eff.toPlivo (.clearAudio "s1"), .toOpenAiRaw .responseCancel] =
      [.clearAudio "s1"] :=
  ⟨rfl, rfl, rfl⟩

/-- C4 counterexample: a malformed frame on the telephony-to-AI pump is NOT
skipped with the pump continuing — the single `try` wraps the whole loop, so
the pump terminates through the `except` handler (invoking post-call
processing) and the following media frame is never forwarded, whereas the
same media frame alone would be forwarded. -/
theorem C4_plivo_pump_dies_on_malformed :
    receive_from_plivo true [.malformed, .media "UUJD"] =
      { sends := [], processed := 0, exit := .errorExit, hangupCalls := 1 } ∧
    receive_from_plivo true [.media "UUJD"] =
      { sends := [.toOpenAi (.inputAudioAppend "UUJD")], processed := 1,
        exit := .connClosed, hangupCalls := 1 } :=
  ⟨rfl, rfl⟩

/-- C4 (amended): a malformed frame on the AI-to-telephony pump is caught
per-message, skipped, and the pump continues with the remaining messages
unchanged; a malformed frame on the telephony-to-AI pump is caught by the
loop-level handler, which logs, triggers post-call processing and terminates
the pump without processing any subsequent frame. -/
theorem C4_amended_malformed_frame_handling (C : Collab) (sid : Option String)
    (msgs : List AiInbound) (st : Option CallRecord)
    (oa : Bool) (rest : List PlivoInbound) :
    openaiPump C sid (.malformed :: msgs) st = openaiPump C sid msgs st ∧
    receive_from_plivo oa (.malformed :: rest) =
      { sends := [], processed := 0, exit := .errorExit, hangupCalls := 1 } := by
  constructor
  · conv_lhs => rw [openaiPump]
    simp [receive_from_openai]
  · rfl

/-- C8: a session with no transcription fragments, no assistant-text
fragments and no tool-call records is discarded without summarization or
delivery and its record is still deleted; and whenever summarization or
delivery raises, the `finally` clause still deletes the record exactly
once. -/
theorem C8_cleanup_guaranteed (r r2 : CallRecord) (f : Bool)
    (h : hasConversationData r = false) :
    after_call_hangup f { record := some r, summaries := 0, deletions := 0 } =
      { record := none, summaries := 0, deletions := 1 } ∧
    (after_call_hangup true { record := some r2, summaries := 0, deletions := 0 }).record = none ∧
    (after_call_hangup true { record := some r2, summaries := 0, deletions := 0 }).deletions = 1 := by
  refine ⟨?_, ?_, ?_⟩
  · unfold after_call_hangup
    simp [h]
  · unfold after_call_hangup
    by_cases h2 : hasConversationData r2 <;> simp [h2]
  · unfold after_call_hangup
    by_cases h2 : hasConversationData r2 <;> simp [h2]

/-- C8 witness: the empty demo session is discarded with no summarization and
one deletion, and a failing delivery still ends with the record deleted. -/
theorem C8_cleanup_guaranteed_witness :
    after_call_hangup false { record := some demoRec, summaries := 0, deletions := 0 } =
      { record := none, summaries := 0, deletions := 1 } ∧
    (after_call_hangup true { record := some demoRec, summaries := 0, deletions := 0 }).record = none ∧
    (after_call_hangup true { record := some demoRec, summaries := 0, deletions := 0 }).deletions = 1 :=
  C8_cleanup_guaranteed demoRec demoRec false rfl

/-- C1: a dispatched `check_slot_availability` call with proposed time `t`:
if the scheduling collaborator reports the slot available, exactly one
appointment record is appended to the session's appointment log and the
result object sent back carries `is_available: true`, the original `t`, and
the `booking_result` of the book call; if unavailable, no appointment record
is appended and the result carries `is_available: false` and `t`. -/
theorem C1_check_slot_availability_books (C : Collab) (rec : CallRecord) (t : String)
    (args : FnArgs) (item_id call_id : String) (hargs : args.proposed_time = some t) :
    (C.is_slot_available t = true →
      dispatchFunction C "check_slot_availability" args item_id call_id (some rec) =
        (some { rec with
            function_calls := rec.function_calls ++
              [{ type := "check_availability", timestamp := C.now, args := args,
                 result := .obj [("is_available", .bool true), ("proposed_time", .str t)],
                 item_id := item_id }]
            appointments := rec.appointments ++
              [{ timestamp := C.now, proposed_time := t,
                 email := resolveEmail (some rec) "customer@example.com",
                 result := C.book_slot_handler t (resolveEmail (some rec) "customer@example.com"),
                 item_id := item_id }] },
         [.book t (resolveEmail (some rec) "customer@example.com"),
          .toOpenAi (.itemCreate (function_call_output
            (.obj [("is_available", .bool true), ("proposed_time", .str t),
                   ("booking_result",
                    C.book_slot_handler t (resolveEmail (some rec) "customer@example.com"))])
            item_id call_id)),
          .toOpenAi (.responseCreate ["text", "audio"] 8
            (if (C.book_slot_handler t (resolveEmail (some rec) "customer@example.com")).hasKey "error" then
               bookErrorInstructions t
                 (pyStrVal (((C.book_slot_handler t
                     (resolveEmail (some rec) "customer@example.com")).get? "error").getD .null))
             else bookedInstructions t))])) ∧
    (C.is_slot_available t = false →
      dispatchFunction C "check_slot_availability" args item_id call_id (some rec) =
        (some { rec with
            function_calls := rec.function_calls ++
              [{ type := "check_availability", timestamp := C.now, args := args,
                 result := .obj [("is_available", .bool false), ("proposed_time", .str t)],
                 item_id := item_id }] },
         [.toOpenAi (.itemCreate (function_call_output
             (.obj [("is_available", .bool false), ("proposed_time", .str t)]) item_id call_id)),
          .toOpenAi (.responseCreate ["text", "audio"] 8 (unavailableInstructions t))])) := by
  constructor
  · intro hav
    simp only [dispatchFunction, hargs, hav]
    simp [recordFunctionCall, recordAppointment, sendResult, Json.truthy]
  · intro hav
    simp only [dispatchFunction, hargs, hav]
    simp [recordFunctionCall, sendResult, Json.truthy]

/-- C1 witness: the demo collaborator reports every slot available, so the
dispatched check books exactly one appointment with the placeholder email. -/
theorem C1_check_slot_availability_books_witness :
    dispatchFunction demoCollab "check_slot_availability"
        { proposed_time := some "2024-05-15T14:30:00" } "it1" "cl1" (some demoRec) =
      (some { demoRec with
          function_calls := demoRec.function_calls ++
            [{ type := "check_availability", timestamp := demoCollab.now,
               args := { proposed_time := some "2024-05-15T14:30:00" },
               result := .obj [("is_available", .bool true),
                               ("proposed_time", .str "2024-05-15T14:30:00")],
               item_id := "it1" }]
          appointments := demoRec.appointments ++
            [{ timestamp := demoCollab.now, proposed_time := "2024-05-15T14:30:00",
               email := resolveEmail (some demoRec) "customer@example.com",
               result := demoCollab.book_slot_handler "2024-05-15T14:30:00"
                 (resolveEmail (some demoRec) "customer@example.com"),
               item_id := "it1" }] },
       [.book "2024-05-15T14:30:00" (resolveEmail (some demoRec) "customer@example.com"),
        .toOpenAi (.itemCreate (function_call_output
          (.obj [("is_available", .bool true), ("proposed_time", .str "2024-05-15T14:30:00"),
                 ("booking_result",
                  demoCollab.book_slot_handler "2024-05-15T14:30:00"
                    (resolveEmail (some demoRec) "customer@example.com"))])
          "it1" "cl1")),
        .toOpenAi (.responseCreate ["text", "audio"] 8
          (if (demoCollab.book_slot_handler "2024-05-15T14:30:00"
                 (resolveEmail (some demoRec) "customer@example.com")).hasKey "error" then
             bookErrorInstructions "2024-05-15T14:30:00"
               (pyStrVal (((demoCollab.book_slot_handler "2024-05-15T14:30:00"
                   (resolveEmail (some demoRec) "customer@example.com")).get? "error").getD .null))
           else bookedInstructions "2024-05-15T14:30:00"))]) :=
  (C1_check_slot_availability_books demoCollab demoRec "2024-05-15T14:30:00"
    { proposed_time := some "2024-05-15T14:30:00" } "it1" "cl1" rfl).1 rfl

/-- C5: every function-call event naming one of the four recognized functions
whose dispatch completes successfully (produces a truthy result — automatic
for the two booking branches, a hypothesis on the collaborator's answer for
the other two) sends back exactly two protocol messages, the function-output
item (output = JSON-encoded result wrapper) followed by the
response-generation trigger; an unrecognized name sends nothing and leaves
the session unchanged. -/
theorem C5_successful_dispatch_sends_two_messages (C : Collab) (st : Option CallRecord)
    (q t item_id call_id : String) (em : Option String) (args : FnArgs) :
    ((C.search_result q != "") = true →
      (dispatchFunction C "search_product_database" { query := some q } item_id call_id st).2 =
        [.toOpenAi (.itemCreate (function_call_output (.str (C.search_result q)) item_id call_id)),
         .toOpenAi (.responseCreate ["text", "audio"] 8 searchInstructions)]) ∧
    (C.available_slots.truthy = true →
      (dispatchFunction C "get_available_slots" args item_id call_id st).2 =
        [.toOpenAi (.itemCreate (function_call_output C.available_slots item_id call_id)),
         .toOpenAi (.responseCreate ["text", "audio"] 8 slotsInstructions)]) ∧
    (∃ r i, openAiTextSends
        (dispatchFunction C "check_slot_availability" { proposed_time := some t }
          item_id call_id st).2 =
      [.itemCreate (function_call_output r item_id call_id),
       .responseCreate ["text", "audio"] 8 i]) ∧
    ((C.book_slot_handler t (resolveEmail st (em.getD "customer@example.com"))).truthy = true →
      ∃ r i, openAiTextSends
          (dispatchFunction C "book_appointment" { proposed_time := some t, email := em }
            item_id call_id st).2 =
        [.itemCreate (function_call_output r item_id call_id),
         .responseCreate ["text", "audio"] 8 i]) ∧
    (∀ fn, fn ≠ "search_product_database" → fn ≠ "get_available_slots" →
       fn ≠ "check_slot_availability" → fn ≠ "book_appointment" →
       dispatchFunction C fn args item_id call_id st = (st, [])) := by
  refine ⟨?_, ?_, ?_, ?_, ?_⟩
  · intro h
    simp [dispatchFunction, sendResult, Json.truthy, h]
  · intro h
    simp [dispatchFunction, sendResult, h]
  · by_cases hav : C.is_slot_available t
    · refine ⟨.obj [("is_available", .bool true), ("proposed_time", .str t),
          ("booking_result",
           C.book_slot_handler t (resolveEmail st "customer@example.com"))],
        (if (C.book_slot_handler t (resolveEmail st "customer@example.com")).hasKey "error" then
           bookErrorInstructions t
             (pyStrVal (((C.book_slot_handler t
                 (resolveEmail st "customer@example.com")).get? "error").getD .null))
         else bookedInstructions t), ?_⟩
      simp [dispatchFunction, sendResult, Json.truthy, hav, openAiTextSends]
    · refine ⟨.obj [("is_available", .bool false), ("proposed_time", .str t)],
        unavailableInstructions t, ?_⟩
      simp [dispatchFunction, sendResult, Json.truthy, hav, openAiTextSends]
  · intro h
    refine ⟨C.book_slot_handler t (resolveEmail st (em.getD "customer@example.com")),
      bookResultInstructions t
        ((C.book_slot_handler t (resolveEmail st (em.getD "customer@example.com"))).hasKey "error"), ?_⟩
    simp [dispatchFunction, sendResult, h, openAiTextSends]
  · intro fn h1 h2 h3 h4
    simp [dispatchFunction, h1, h2, h3, h4]

/-- C5 witness: with the demo collaborator every hypothesis holds, and each
recognized dispatch yields exactly the two protocol messages while the
unrecognized name "frobnicate" yields none. -/
theorem C5_successful_dispatch_sends_two_messages_witness :
    ((dispatchFunction demoCollab "search_product_database" { query := some "bolt M6" }
        "it1" "cl1" (some demoRec)).2 =
      [.toOpenAi (.itemCreate (function_call_output (.str (demoCollab.search_result "bolt M6"))
          "it1" "cl1")),
       .toOpenAi (.responseCreate ["text", "audio"] 8 searchInstructions)]) ∧
    ((dispatchFunction demoCollab "get_available_slots" {} "it1" "cl1" (some demoRec)).2 =
      [.toOpenAi (.itemCreate (function_call_output demoCollab.available_slots "it1" "cl1")),
       .toOpenAi (.responseCreate ["text", "audio"] 8 slotsInstructions)]) ∧
    (∃ r i, openAiTextSends
        (dispatchFunction demoCollab "check_slot_availability"
          { proposed_time := some "2024-05-15T14:30:00" } "it1" "cl1" (some demoRec)).2 =
      [.itemCreate (function_call_output r "it1" "cl1"),
       .responseCreate ["text", "audio"] 8 i]) ∧
    (∃ r i, openAiTextSends
        (dispatchFunction demoCollab "book_appointment"
          { proposed_time := some "2024-05-15T14:30:00", email := some "a@b.c" }
          "it1" "cl1" (some demoRec)).2 =
      [.itemCreate (function_call_output r "it1" "cl1"),
       .responseCreate ["text", "audio"] 8 i]) ∧
    (dispatchFunction demoCollab "frobnicate" {} "it1" "cl1" (some demoRec) =
      (some demoRec, [])) := by
  have h := C5_successful_dispatch_sends_two_messages demoCollab (some demoRec)
    "bolt M6" "2024-05-15T14:30:00" "it1" "cl1" (some "a@b.c") {}
  exact ⟨h.1 (by decide), h.2.1 (by decide), h.2.2.1, h.2.2.2.1 (by decide),
    h.2.2.2.2 "frobnicate" (by decide) (by decide) (by decide) (by decide)⟩

/-! ## Lemmas about fragment accumulation -/

theorem lookup_none_key_ne (m : List (String × Frag)) (id : String)
    (h : m.lookup id = none) : ∀ kv ∈ m, kv.1 ≠ id := by
  induction m with
  | nil => intro kv hkv; cases hkv
  | cons kv0 rest ih =>
    obtain ⟨k, v⟩ := kv0
    intro kv hkv
    rw [List.lookup] at h
    by_cases hk : id = k
    · simp [hk] at h
    · have hne : (id == k) = false := beq_eq_false_iff_ne.mpr hk
      rw [hne] at h
      rcases List.mem_cons.mp hkv with rfl | hm
      · exact fun hc => hk hc.symm
      · exact ih h kv hm

theorem frags_append_lookup (m : List (String × Frag)) (id : String) (fr : Frag)
    (h : ∀ kv ∈ m, kv.1 ≠ id) : (m ++ [(id, fr)]).lookup id = some fr := by
  induction m with
  | nil => simp [List.lookup]
  | cons kv0 rest ih =>
    obtain ⟨k, v⟩ := kv0
    have hk : k ≠ id := h (k, v) (by simp)
    have hne : (id == k) = false := beq_eq_false_iff_ne.mpr (Ne.symm hk)
    rw [List.cons_append, List.lookup, hne]
    exact ih fun x hx => h x (by simp [hx])

theorem appendFragText_append (m : List (String × Frag)) (id delta : String) (fr : Frag)
    (h : ∀ kv ∈ m, kv.1 ≠ id) :
    appendFragText id delta (m ++ [(id, fr)]) =
      m ++ [(id, { fr with text := fr.text ++ delta })] := by
  induction m with
  | nil => simp [appendFragText]
  | cons kv0 rest ih =>
    obtain ⟨k, v⟩ := kv0
    have hk : k ≠ id := h (k, v) (by simp)
    have hne : (k == id) = false := beq_eq_false_iff_ne.mpr hk
    rw [List.cons_append, appendFragText, hne]
    simp only [Bool.false_eq_true, if_false, List.cons_append, List.cons.injEq, true_and]
    exact ih fun x hx => h x (by simp [hx])

theorem setFrag_append (m : List (String × Frag)) (id : String) (fr fr2 : Frag)
    (h : ∀ kv ∈ m, kv.1 ≠ id) :
    setFrag id fr2 (m ++ [(id, fr)]) = m ++ [(id, fr2)] := by
  induction m with
  | nil => simp [setFrag]
  | cons kv0 rest ih =>
    obtain ⟨k, v⟩ := kv0
    have hk : k ≠ id := h (k, v) (by simp)
    have hne : (k == id) = false := beq_eq_false_iff_ne.mpr hk
    rw [List.cons_append, setFrag, hne]
    simp only [Bool.false_eq_true, if_false, List.cons_append, List.cons.injEq, true_and]
    exact ih fun x hx => h x (by simp [hx])

theorem transDelta_fresh (m : List (String × Frag)) (id a : String)
    (h : m.lookup id = none) :
    transDelta id a m = m ++ [(id, { text := a, complete := false })] := by
  unfold transDelta
  rw [h]

theorem transDelta_twice (m : List (String × Frag)) (id a b : String)
    (h : m.lookup id = none) :
    transDelta id b (transDelta id a m) =
      m ++ [(id, { text := a ++ b, complete := false })] := by
  have hkeys := lookup_none_key_ne m id h
  rw [transDelta_fresh m id a h]
  unfold transDelta
  rw [frags_append_lookup m id _ hkeys,
    appendFragText_append m id b _ hkeys]

theorem updateAssistantText_append (rs : List AssistantResponse) (id delta : String)
    (e : AssistantResponse) (h : ∀ r ∈ rs, r.item_id ≠ id) (he : e.item_id = id) :
    updateAssistantText id delta (rs ++ [e]) =
      rs ++ [{ e with text := e.text ++ delta }] := by
  induction rs with
  | nil =>
    simp [updateAssistantText, he]
  | cons r rest ih =>
    have hr : r.item_id ≠ id := h r (by simp)
    have hne : (r.item_id == id) = false := beq_eq_false_iff_ne.mpr hr
    rw [List.cons_append, updateAssistantText, hne]
    simp only [Bool.false_eq_true, if_false, List.cons_append, List.cons.injEq, true_and]
    exact ih fun x hx => h x (by simp [hx])

theorem addAssistantDelta_twice (rs : List AssistantResponse) (id a b : String)
    (n1 n2 : Nat) (h : ∀ r ∈ rs, r.item_id ≠ id) :
    addAssistantDelta id b n2 (addAssistantDelta id a n1 rs) =
      rs ++ [{ item_id := id, text := a ++ b, timestamp := n1 }] := by
  have hany : (rs.any (fun r => r.item_id == id)) = false := by
    rw [List.any_eq_false]
    intro r hr
    simp [beq_eq_false_iff_ne.mpr (h r hr)]
  unfold addAssistantDelta
  rw [hany]
  simp only [Bool.false_eq_true, if_false]
  have hany2 : ((rs ++ [({ item_id := id, text := a, timestamp := n1 } : AssistantResponse)]).any
      (fun r => r.item_id == id)) = true := by
    rw [List.any_append]
    simp [List.any]
  rw [hany2]
  simp only [if_true]
  exact updateAssistantText_append rs id b _ h rfl

/-- In every branch of the transcription-completed handler the stored
fragment for `item_id` is replaced by the final transcript, marked
complete. -/
theorem handleCompleted_transcriptions (C : Collab) (id tr : String) (rec : CallRecord) :
    ((handleTranscriptionCompleted C id tr (some rec)).1).map CallRecord.transcriptions =
      some (setFrag id { text := tr, complete := true } rec.transcriptions) := by
  simp only [handleTranscriptionCompleted]
  repeat' split
  all_goals rfl

/-- C7: fragment accumulation is order-preserving for a fresh utterance id:
delta "a" then delta "b" yields accumulated text `a ++ b` for both
assistant-text fragments and user-transcription fragments; a later
transcription-complete event with explicit final text replaces the
accumulated text entirely and marks the fragment complete. -/
theorem C7_fragment_accumulation (C : Collab) (sid : Option String) (rec : CallRecord)
    (id a b f : String)
    (h1 : rec.transcriptions.lookup id = none)
    (h2 : ∀ r ∈ rec.assistant_responses, r.item_id ≠ id) :
    (receive_from_openai C sid
        (receive_from_openai C sid (some rec) (.ok (.responseTextDelta id a))).1
        (.ok (.responseTextDelta id b))).1 =
      some { rec with assistant_responses := rec.assistant_responses ++
               [{ item_id := id, text := a ++ b, timestamp := C.now }] } ∧
    (receive_from_openai C sid
        (receive_from_openai C sid (some rec) (.ok (.transcriptionDelta id a))).1
        (.ok (.transcriptionDelta id b))).1 =
      some { rec with transcriptions := rec.transcriptions ++
               [(id, { text := a ++ b, complete := false })] } ∧
    ((receive_from_openai C sid
        (some { rec with transcriptions := rec.transcriptions ++
                  [(id, { text := a ++ b, complete := false })] })
        (.ok (.transcriptionCompleted id f))).1).map CallRecord.transcriptions =
      some (rec.transcriptions ++ [(id, { text := f, complete := true })]) := by
  refine ⟨?_, ?_, ?_⟩
  · simp only [receive_from_openai]
    rw [addAssistantDelta_twice rec.assistant_responses id a b C.now C.now h2]
  · simp only [receive_from_openai]
    rw [transDelta_twice rec.transcriptions id a b h1]
  · simp only [receive_from_openai]
    rw [handleCompleted_transcriptions]
    rw [setFrag_append rec.transcriptions id _ _ (lookup_none_key_ne _ _ h1)]

/-- C7 witness: on the fresh demo session, "Hel" then "lo" accumulates to
"Hello" in both logs, and the completed event overwrites with its final
text. -/
theorem C7_fragment_accumulation_witness :
    (receive_from_openai demoCollab (some "s1")
        (receive_from_openai demoCollab (some "s1") (some demoRec)
          (.ok (.responseTextDelta "u1" "Hel"))).1
        (.ok (.responseTextDelta "u1" "lo"))).1 =
      some { demoRec with assistant_responses :=
               demoRec.assistant_responses ++
                 [{ item_id := "u1", text := "Hel" ++ "lo", timestamp := demoCollab.now }] } ∧
    (receive_from_openai demoCollab (some "s1")
        (receive_from_openai demoCollab (some "s1") (some demoRec)
          (.ok (.transcriptionDelta "u1" "Hel"))).1
        (.ok (.transcriptionDelta "u1" "lo"))).1 =
      some { demoRec with transcriptions :=
               demoRec.transcriptions ++
                 [("u1", { text := "Hel" ++ "lo", complete := false })] } ∧
    ((receive_from_openai demoCollab (some "s1")
        (some { demoRec with transcriptions :=
                  demoRec.transcriptions ++
                    [("u1", { text := "Hel" ++ "lo", complete := false })] })
        (.ok (.transcriptionCompleted "u1" "Hello there"))).1).map CallRecord.transcriptions =
      some (demoRec.transcriptions ++ [("u1", { text := "Hello there", complete := true })]) :=
  C7_fragment_accumulation demoCollab (some "s1") demoRec "u1" "Hel" "lo" "Hello there"
    rfl (by simp [demoRec])

/-- C9: an assistant audio delta sends exactly one play-audio frame to the
telephony socket, tagged `audio/x-mulaw` at 8000 Hz, whose payload is the
base64 re-encoding of the base64-decoded delta, and that round trip
preserves the decoded audio bytes. -/
theorem C9_audio_delta_roundtrip (C : Collab) (sid : Option String) (st : Option CallRecord)
    (delta : String) (bytes : List Nat) (h : b64decodeChars delta.toList = some bytes) :
    receive_from_openai C sid st (.ok (.responseAudioDelta delta)) =
      (st, [.toPlivo (.playAudio "audio/x-mulaw" 8000 (String.mk (b64encodeBytes bytes)))]) ∧
    b64decodeChars (String.mk (b64encodeBytes bytes)).toList = some bytes := by
  constructor
  · simp only [receive_from_openai]
    rw [h]
  · have hb := b64decode_bytes_lt delta.toList bytes h
    have hl : (String.mk (b64encodeBytes bytes)).toList = b64encodeBytes bytes := rfl
    rw [hl]
    exact b64_roundtrip bytes hb

/-- C9 witness: decoding "QUJD" gives the bytes of "ABC", which get
re-encoded into the single play-audio frame, and decoding the payload
returns exactly those bytes. -/
theorem C9_audio_delta_roundtrip_witness :
    receive_from_openai demoCollab (some "s1") (some demoRec)
        (.ok (.responseAudioDelta "QUJD")) =
      (some demoRec,
       [.toPlivo (.playAudio "audio/x-mulaw" 8000 (String.mk (b64encodeBytes [65, 66, 67])))]) ∧
    b64decodeChars (String.mk (b64encodeBytes [65, 66, 67])).toList = some [65, 66, 67] :=
  C9_audio_delta_roundtrip demoCollab (some "s1") (some demoRec) "QUJD" [65, 66, 67] (by decide)

/-! ## Lemmas about role capture -/

theorem add_phone_status_ok (n : Bool) (p r : String) :
    ((add_phone_with_role n false p r).status == "created" ||
     (add_phone_with_role n false p r).status == "exists") = true := by
  unfold add_phone_with_role
  by_cases hn : n <;> simp [hn]

/-- The completed-transcription handler on a new caller with an undeclared
role whose transcript mentions a role, when the directory write does not
error: one registration, flag set, instructions switched, session update
pushed (and the follow-up `response.create` sent raw, without
`json.dumps`). -/
theorem handleCompleted_newuser (C : Collab) (id t : String) (rec : CallRecord)
    (hex : rec.user_exists = false) (hrole : rec.user_role_set = false)
    (hsub : (strContains (lowerStr t) "contractor" || strContains (lowerStr t) "customer") = true)
    (hreg : C.reg_db_error = false) :
    handleTranscriptionCompleted C id t (some rec) =
      (some { rec with
          transcriptions := setFrag id { text := t, complete := true } rec.transcriptions
          user_role_set := true
          system_message := SYSTEM_MESSAGE },
       [.register rec.caller_number
          (if strContains (lowerStr t) "contractor" then "contractor" else "customer"),
        .toOpenAi (.sessionUpdate SYSTEM_MESSAGE),
        .toOpenAiRaw (.responseCreate ["text", "audio"] 8
          (thankInstr (if strContains (lowerStr t) "contractor" then "contractor"
                       else "customer")))]) := by
  by_cases hc : strContains (lowerStr t) "contractor"
  · simp only [handleTranscriptionCompleted]
    simp [hex, hrole, hc, hreg, add_phone_status_ok]
  · rw [Bool.or_eq_true] at hsub
    have hcu : strContains (lowerStr t) "customer" = true := by
      rcases hsub with h | h
      · exact absurd h hc
      · exact h
    simp only [handleTranscriptionCompleted]
    simp [hex, hrole, hc, hcu, hreg, add_phone_status_ok]

/-- The completed-transcription handler once the role is declared: the
fragment is stored, nothing else happens. -/
theorem handleCompleted_roleset (C : Collab) (id t : String) (rec : CallRecord)
    (hrole : rec.user_role_set = true) :
    handleTranscriptionCompleted C id t (some rec) =
      (some { rec with
          transcriptions := setFrag id { text := t, complete := true } rec.transcriptions },
       []) := by
  simp only [handleTranscriptionCompleted]
  simp [hrole]

/-- C6: for a caller with no directory entry, the first completed
transcription containing "contractor" or "customer" (case-insensitively,
contractor checked first) triggers exactly one directory registration; on a
non-error outcome ("created" or "exists") the role-declared flag is set, the
system instructions switch to the standard variant, a session-configuration
update is pushed, and a subsequent completed transcription containing either
substring registers nothing. -/
theorem C6_role_capture_exactly_once (C : Collab) (sid : Option String) (rec : CallRecord)
    (id id2 t t2 : String)
    (hex : rec.user_exists = false) (hrole : rec.user_role_set = false)
    (hsub : (strContains (lowerStr t) "contractor" || strContains (lowerStr t) "customer") = true)
    (hreg : C.reg_db_error = false)
    (hsub2 : (strContains (lowerStr t2) "contractor" || strContains (lowerStr t2) "customer") = true) :
    registrations (receive_from_openai C sid (some rec) (.ok (.transcriptionCompleted id t))).2 =
      [(rec.caller_number,
        if strContains (lowerStr t) "contractor" then "contractor" else "customer")] ∧
    (∃ rec2,
       (receive_from_openai C sid (some rec) (.ok (.transcriptionCompleted id t))).1 = some rec2 ∧
       rec2.user_role_set = true ∧ rec2.system_message = SYSTEM_MESSAGE) ∧
    openAiTextSends
        (receive_from_openai C sid (some rec) (.ok (.transcriptionCompleted id t))).2 =
      [.sessionUpdate SYSTEM_MESSAGE] ∧
    registrations (receive_from_openai C sid
        (receive_from_openai C sid (some rec) (.ok (.transcriptionCompleted id t))).1
        (.ok (.transcriptionCompleted id2 t2))).2 = [] := by
  have h1 := handleCompleted_newuser C id t rec hex hrole hsub hreg
  refine ⟨?_, ?_, ?_, ?_⟩
  · simp only [receive_from_openai]
    rw [h1]
    rfl
  · simp only [receive_from_openai]
    rw [h1]
    exact ⟨_, rfl, rfl, rfl⟩
  · simp only [receive_from_openai]
    rw [h1]
    rfl
  · simp only [receive_from_openai]
    rw [h1]
    rw [handleCompleted_roleset C id2 t2 _ rfl]
    rfl

/-- C6 witness: a fresh caller saying "I am a contractor" is registered once
as a contractor; a later "Actually I meant customer" registers nothing. -/
theorem C6_role_capture_exactly_once_witness :
    registrations (receive_from_openai demoCollab (some "s1") (some demoRec)
        (.ok (.transcriptionCompleted "u1" "I am a contractor"))).2 =
      [(demoRec.caller_number,
        if strContains (lowerStr "I am a contractor") "contractor" then "contractor"
        else "customer")] ∧
    (∃ rec2,
       (receive_from_openai demoCollab (some "s1") (some demoRec)
          (.ok (.transcriptionCompleted "u1" "I am a contractor"))).1 = some rec2 ∧
       rec2.user_role_set = true ∧ rec2.system_message = SYSTEM_MESSAGE) ∧
    openAiTextSends (receive_from_openai demoCollab (some "s1") (some demoRec)
        (.ok (.transcriptionCompleted "u1" "I am a contractor"))).2 =
      [.sessionUpdate SYSTEM_MESSAGE] ∧
    registrations (receive_from_openai demoCollab (some "s1")
        (receive_from_openai demoCollab (some "s1") (some demoRec)
          (.ok (.transcriptionCompleted "u1" "I am a contractor"))).1
        (.ok (.transcriptionCompleted "u2" "Actually I meant customer"))).2 = [] :=
  C6_role_capture_exactly_once demoCollab (some "s1") demoRec "u1" "u2"
    "I am a contractor" "Actually I meant customer" rfl rfl (by decide) rfl (by decide)

/-- C10 counterexample: a `book_appointment` dispatch with an explicit email
argument for a caller whose directory lookup is "incomplete" (pending email)
books with that argument, not with the placeholder address — refuting
"bookings for such callers use the placeholder address". -/
theorem C10_book_uses_argument_email :
    (get_user_details (some pendingRow)).status = "incomplete" ∧
    ((dispatchFunction demoCollab "book_appointment"
        { proposed_time := some "2024-05-15T14:30:00", email := some "alice@example.com" }
        "it9" "cl9" (some pendingRec)).1).map (fun r => r.appointments.map Appointment.email) =
      some ["alice@example.com"] ∧
    "alice@example.com" ≠ "customer@example.com" :=
  ⟨rfl, rfl, by decide⟩

/-- C10 (amended): the stored profile email is used only when the directory
lookup returned "success"; the lookup returns "incomplete" whenever the
stored email is missing, empty, or `pending_`-prefixed, so bookings for such
callers never use the stored email — `check_slot_availability` books with the
placeholder, and `book_appointment` books with the supplied email argument,
defaulting to the placeholder when absent. -/
theorem C10_amended_email_policy (row : DbRow) (C : Collab) (rec : CallRecord)
    (t item_id call_id : String) (argEmail : Option String)
    (hbad : emailMissingOrPending row.email = true)
    (hud : rec.user_details = some (get_user_details (some row))) :
    (get_user_details (some row)).status = "incomplete" ∧
    (∀ d, resolveEmail (some rec) d = d) ∧
    (C.is_slot_available t = true →
      ((dispatchFunction C "check_slot_availability" { proposed_time := some t }
          item_id call_id (some rec)).1).map (fun r => r.appointments.map Appointment.email) =
        some (rec.appointments.map Appointment.email ++ ["customer@example.com"])) ∧
    (((dispatchFunction C "book_appointment" { proposed_time := some t, email := argEmail }
          item_id call_id (some rec)).1).map (fun r => r.appointments.map Appointment.email) =
        some (rec.appointments.map Appointment.email ++ [argEmail.getD "customer@example.com"])) := by
  have hres : ∀ d, resolveEmail (some rec) d = d := by
    intro d
    simp only [resolveEmail]
    rw [hud]
    by_cases hue : rec.user_exists
    · simp [hue, get_user_details, hbad]
    · simp [hue]
  refine ⟨by simp [get_user_details, hbad], hres, ?_, ?_⟩
  · intro hav
    simp [dispatchFunction, hav, recordFunctionCall, recordAppointment, sendResult, hres]
  · simp [dispatchFunction, recordAppointment, sendResult, hres]

/-- C10 amended witness: for the pending-email caller, the checked slot books
with the placeholder and the explicit-argument booking books with the
argument. -/
theorem C10_amended_email_policy_witness :
    (get_user_details (some pendingRow)).status = "incomplete" ∧
    resolveEmail (some pendingRec) "fallback@example.com" = "fallback@example.com" ∧
    ((dispatchFunction demoCollab "check_slot_availability"
        { proposed_time := some "2024-05-15T14:30:00" } "it2" "cl2" (some pendingRec)).1).map
      (fun r => r.appointments.map Appointment.email) = some ["customer@example.com"] ∧
    ((dispatchFunction demoCollab "book_appointment"
        { proposed_time := some "2024-05-15T14:30:00", email := some "alice@example.com" }
        "it2" "cl2" (some pendingRec)).1).map
      (fun r => r.appointments.map Appointment.email) = some ["alice@example.com"] := by
  have h := C10_amended_email_policy pendingRow demoCollab pendingRec
    "2024-05-15T14:30:00" "it2" "cl2" (some "alice@example.com") (by decide) rfl
  exact ⟨h.1, h.2.1 "fallback@example.com",
    by simpa using h.2.2.1 rfl, by simpa using h.2.2.2⟩
